import Mathlib

/-!
Shallow embedding of the payments-engine core: the `Account` and
`DepositRecord` entities (`src/account.rs`), the account store
(`src/account_store.rs`), the transaction type (`src/transaction.rs`) and
the `handle` operation of the transaction engine (`src/transaction_engine.rs`).

Monetary values use `rust_decimal::Decimal` in the source: exact base-10
decimal arithmetic (addition, subtraction, `max`, `min`, comparisons only).
We model it as `Int` — an exact scaled decimal (all amounts are fixed at
4 decimal places on entry, so sums and differences stay exact).

The Rust store mutates accounts in place and creates a fresh
`Account::new(client_id)` on first reference (`get_account_mut`), so we
model the store as a total function from client id to `Account`, initially
`fun c => Account.new c`; `handle` is state passing, returning the result
together with the post-call store (on error paths the store as left by the
early return).
-/

namespace PaymentsEngine

/-- Model of `rust_decimal::Decimal`: exact scaled decimal arithmetic. -/
abbrev Decimal := Int

/-- Embeds `DisputeStatus` from `src/account.rs`. -/
inductive DisputeStatus where
  | NotDisputed
  | Disputed
  | Resolved
  | Refunded
deriving DecidableEq, Repr

/-- Debug-format name of a `DisputeStatus`, as used in the `format!`
error messages of the transition methods. -/
def DisputeStatus.name : DisputeStatus → String
  | DisputeStatus.NotDisputed => "NotDisputed"
  | DisputeStatus.Disputed => "Disputed"
  | DisputeStatus.Resolved => "Resolved"
  | DisputeStatus.Refunded => "Refunded"

/-- Embeds `DepositRecord` from `src/account.rs`: a deposited amount plus its
dispute-lifecycle status. -/
structure DepositRecord where
  amount : Decimal
  dispute_status : DisputeStatus
deriving DecidableEq, Repr

/-- Embeds `DepositRecord::new`. -/
def DepositRecord.new (amount : Decimal) : DepositRecord :=
  { amount := amount, dispute_status := DisputeStatus.NotDisputed }

/-- Embeds `DepositRecord::disputed`: guarded transition to `Disputed`.
The Rust method mutates `self` and returns `Result<(), String>`; we return
the updated record on success. -/
def DepositRecord.disputed (r : DepositRecord) : Except String DepositRecord :=
  if r.dispute_status = DisputeStatus.Disputed ∨ r.dispute_status = DisputeStatus.Refunded then
    Except.error ("Cannot begin dispute from current transaciton state " ++ r.dispute_status.name)
  else
    Except.ok { r with dispute_status := DisputeStatus.Disputed }

/-- Embeds `DepositRecord::resolved`: guarded transition `Disputed → Resolved`. -/
def DepositRecord.resolved (r : DepositRecord) : Except String DepositRecord :=
  if r.dispute_status ≠ DisputeStatus.Disputed then
    Except.error ("Cannot resolve dispute from current transaction state " ++ r.dispute_status.name)
  else
    Except.ok { r with dispute_status := DisputeStatus.Resolved }

/-- Embeds `DepositRecord::refunded`: guarded transition `Disputed → Refunded`. -/
def DepositRecord.refunded (r : DepositRecord) : Except String DepositRecord :=
  if r.dispute_status ≠ DisputeStatus.Disputed then
    Except.error ("Cannot chargeback from current transaction state " ++ r.dispute_status.name)
  else
    Except.ok { r with dispute_status := DisputeStatus.Refunded }

/-- The per-account transactions map, `HashMap<u32, DepositRecord>`,
modelled extensionally. -/
abbrev TxMap := Nat → Option DepositRecord

/-- The empty transactions map (`HashMap::new` via `Default`). -/
def TxMap.empty : TxMap := fun _ => none

/-- Embeds `HashMap::insert` (overwriting). -/
def TxMap.insert (m : TxMap) (k : Nat) (v : DepositRecord) : TxMap :=
  fun k2 => if k2 = k then some v else m k2

/-- Embeds `Account` from `src/account.rs`. -/
structure Account where
  client : Nat
  total_funds : Decimal
  active_dispute_total : Decimal
  locked : Bool
  transactions : TxMap

/-- Embeds `Account::new`: a fresh account with zero funds (the `Default` values). -/
def Account.new (client : Nat) : Account :=
  { client := client
  , total_funds := 0
  , active_dispute_total := 0
  , locked := false
  , transactions := TxMap.empty }

/-- Embeds `Account::available_funds`:
`max(self.total_funds - self.active_dispute_total, Decimal::ZERO)`. -/
def Account.available_funds (a : Account) : Decimal :=
  max (a.total_funds - a.active_dispute_total) 0

/-- Embeds `Account::held_funds`:
`min(self.active_dispute_total, max(self.total_funds, Decimal::ZERO))`. -/
def Account.held_funds (a : Account) : Decimal :=
  min a.active_dispute_total (max a.total_funds 0)

/-- Embeds `Account::free_disputed_amount`: subtracts `amount` from
`active_dispute_total`, clamping at zero; the `Bool` is `true` exactly when
the subtraction would have gone negative. -/
def Account.free_disputed_amount (a : Account) (amount : Decimal) : Bool × Account :=
  let new_disputed := a.active_dispute_total - amount
  if new_disputed < 0 then
    (true, { a with active_dispute_total := 0 })
  else
    (false, { a with active_dispute_total := new_disputed })

/-- Embeds `TransactionInfo` from `src/transaction.rs`. -/
inductive TransactionInfo where
  | Deposit (amount : Decimal)
  | Withdrawal (amount : Decimal)
  | Dispute
  | Resolve
  | Chargeback
deriving DecidableEq, Repr

/-- Embeds `Transaction` from `src/transaction.rs`. -/
structure Transaction where
  client_id : Nat
  transaction_id : Nat
  info : TransactionInfo
deriving DecidableEq, Repr

/-- Embeds `TransactionNotApplied` from `src/transaction_engine.rs`. -/
inductive TransactionNotApplied where
  | AccountLocked
  | RepeatTransaction (id : Nat)
  | InsufficientFunds
  | DisputedTransactionNotFound (id : Nat)
  | InvalidDisputeState (detail : String)
  | UnexpectedError (detail : String)
deriving DecidableEq, Repr

/-- The account store, `InMemoryStore`, modelled as a total function:
`get_account_mut` lazily creates `Account::new(client_id)` on first
reference, so an untouched client id maps to that fresh account. -/
abbrev Store := Nat → Account

/-- Embeds `InMemoryStore::new`: the empty store (every client id resolves to a
fresh zero-balance account on first mutable access). -/
def initStore : Store := fun c => Account.new c

/-- Writing back the mutated account for one client. -/
def Store.update (s : Store) (c : Nat) (a : Account) : Store :=
  fun c2 => if c2 = c then a else s c2

/-- Embeds `TxEngine::handle` from `src/transaction_engine.rs`, state passing:
returns the `Result` together with the store as left by the call (error
early-returns leave the store as it was at that point). -/
def handle (s : Store) (t : Transaction) : Except TransactionNotApplied Unit × Store :=
  let account := s t.client_id
  if account.locked then
    (Except.error TransactionNotApplied.AccountLocked, s)
  else
    match t.info with
    | TransactionInfo.Deposit amount =>
      match account.transactions t.transaction_id with
      | some _ =>
        (Except.error (TransactionNotApplied.RepeatTransaction t.transaction_id), s)
      | none =>
        (Except.ok (),
         s.update t.client_id
           { account with
               total_funds := account.total_funds + amount
             , transactions :=
                 account.transactions.insert t.transaction_id (DepositRecord.new amount) })
    | TransactionInfo.Withdrawal amount =>
      if account.available_funds < amount then
        (Except.error TransactionNotApplied.InsufficientFunds, s)
      else
        (Except.ok (),
         s.update t.client_id { account with total_funds := account.total_funds - amount })
    | TransactionInfo.Dispute =>
      match account.transactions t.transaction_id with
      | none =>
        (Except.error (TransactionNotApplied.DisputedTransactionNotFound t.transaction_id), s)
      | some r =>
        match r.disputed with
        | Except.error err => (Except.error (TransactionNotApplied.InvalidDisputeState err), s)
        | Except.ok r2 =>
          (Except.ok (),
           s.update t.client_id
             { account with
                 transactions := account.transactions.insert t.transaction_id r2
               , active_dispute_total := account.active_dispute_total + r2.amount })
    | TransactionInfo.Resolve =>
      match account.transactions t.transaction_id with
      | none =>
        (Except.error (TransactionNotApplied.DisputedTransactionNotFound t.transaction_id), s)
      | some r =>
        match r.resolved with
        | Except.error err => (Except.error (TransactionNotApplied.InvalidDisputeState err), s)
        | Except.ok r2 =>
          let acct1 := { account with transactions := account.transactions.insert t.transaction_id r2 }
          (Except.ok (), s.update t.client_id (acct1.free_disputed_amount r2.amount).2)
    | TransactionInfo.Chargeback =>
      match account.transactions t.transaction_id with
      | none =>
        (Except.error (TransactionNotApplied.DisputedTransactionNotFound t.transaction_id), s)
      | some r =>
        match r.refunded with
        | Except.error err => (Except.error (TransactionNotApplied.InvalidDisputeState err), s)
        | Except.ok r2 =>
          let acct1 := { account with transactions := account.transactions.insert t.transaction_id r2 }
          let acct2 := (acct1.free_disputed_amount r2.amount).2
          (Except.ok (),
           s.update t.client_id
             { acct2 with total_funds := acct2.total_funds - r2.amount, locked := true })

/-- A transaction as the parsing boundary (`TryFrom<TransactionRaw>` in
`src/transaction.rs`) delivers it: deposit and withdrawal amounts are
strictly positive. -/
def validTx (t : Transaction) : Bool :=
  match t.info with
  | TransactionInfo.Deposit a => decide (0 < a)
  | TransactionInfo.Withdrawal a => decide (0 < a)
  | _ => true

/-- Store states reachable from the empty store by any sequence of `handle`
calls on parser-valid transactions (successful or rejected). -/
inductive Reachable : Store → Prop where
  | init : Reachable initStore
  | step (s : Store) (t : Transaction) (hv : validTx t = true) (hs : Reachable s) :
      Reachable (handle s t).2

/-- Per-account bookkeeping invariant maintained by the engine on
parser-valid input: the disputed total is non-negative, an unlocked
account is never overdrawn, and every recorded deposit has a positive
amount. -/
def AccountInv (a : Account) : Prop :=
  0 ≤ a.active_dispute_total ∧
  (a.locked = false → 0 ≤ a.total_funds) ∧
  ∀ k r, a.transactions k = some r → 0 < r.amount

/-- Predicate `AccountInv` at every client id. -/
def StoreInv (s : Store) : Prop := ∀ c, AccountInv (s c)

/-- Concrete run: deposit 10 (tx 7), withdraw 7 (tx 8), dispute tx 7 —
leaves client 1 with `total_funds = 3`, a disputed record of amount 10
and `active_dispute_total = 10`. -/
def storeDisputed : Store :=
  (handle (handle (handle initStore
      { client_id := 1, transaction_id := 7, info := TransactionInfo.Deposit 10 }).2
      { client_id := 1, transaction_id := 8, info := TransactionInfo.Withdrawal 7 }).2
      { client_id := 1, transaction_id := 7, info := TransactionInfo.Dispute }).2

/-- Store `storeDisputed` followed by a chargeback of tx 7: client 1 ends with
`total_funds = -7` and `locked = true`. -/
def storeLockedNeg : Store :=
  (handle storeDisputed
    { client_id := 1, transaction_id := 7, info := TransactionInfo.Chargeback }).2

/-- Concrete run: a single deposit of 4 (tx 3) for client 1. -/
def storeOneDeposit : Store :=
  (handle initStore
    { client_id := 1, transaction_id := 3, info := TransactionInfo.Deposit 4 }).2

/-!
## Shared lemmas about the embedding
-/

theorem TxMap.insert_self (m : TxMap) (k : Nat) (v : DepositRecord) :
    m.insert k v k = some v := by
  simp [TxMap.insert]

theorem TxMap.insert_other (m : TxMap) (k : Nat) (v : DepositRecord) (k2 : Nat) (h : k2 ≠ k) :
    m.insert k v k2 = m k2 := by
  simp [TxMap.insert, h]

theorem Store.update_self (s : Store) (c : Nat) (a : Account) :
    s.update c a c = a := by
  simp [Store.update]

theorem Store.update_other (s : Store) (c : Nat) (a : Account) (c2 : Nat) (h : c2 ≠ c) :
    s.update c a c2 = s c2 := by
  simp [Store.update, h]

theorem DepositRecord.disputed_ok {r r2 : DepositRecord}
    (h : r.disputed = Except.ok r2) :
    r2 = { r with dispute_status := DisputeStatus.Disputed } ∧
      (r.dispute_status = DisputeStatus.NotDisputed ∨ r.dispute_status = DisputeStatus.Resolved) := by
  unfold DepositRecord.disputed at h
  split at h
  · exact absurd h (by simp)
  · next hcond =>
    push_neg at hcond
    refine ⟨by injection h with h2; exact h2.symm, ?_⟩
    cases hst : r.dispute_status
    · exact Or.inl rfl
    · exact absurd hst hcond.1
    · exact Or.inr rfl
    · exact absurd hst hcond.2

theorem DepositRecord.resolved_ok {r r2 : DepositRecord}
    (h : r.resolved = Except.ok r2) :
    r2 = { r with dispute_status := DisputeStatus.Resolved } ∧
      r.dispute_status = DisputeStatus.Disputed := by
  unfold DepositRecord.resolved at h
  split at h
  · exact absurd h (by simp)
  · next hcond =>
    push_neg at hcond
    exact ⟨by injection h with h2; exact h2.symm, hcond⟩

theorem DepositRecord.refunded_ok {r r2 : DepositRecord}
    (h : r.refunded = Except.ok r2) :
    r2 = { r with dispute_status := DisputeStatus.Refunded } ∧
      r.dispute_status = DisputeStatus.Disputed := by
  unfold DepositRecord.refunded at h
  split at h
  · exact absurd h (by simp)
  · next hcond =>
    push_neg at hcond
    exact ⟨by injection h with h2; exact h2.symm, hcond⟩

theorem Account.free_disputed_amount_snd (a : Account) (amount : Decimal) :
    (a.free_disputed_amount amount).2 =
      { a with active_dispute_total := max (a.active_dispute_total - amount) 0 } := by
  by_cases h : a.active_dispute_total - amount < 0
  · simp [Account.free_disputed_amount, h, max_eq_right h.le]
  · push_neg at h
    simp [Account.free_disputed_amount, not_lt.mpr h, max_eq_left h]

theorem Account.free_disputed_amount_fst (a : Account) (amount : Decimal) :
    (a.free_disputed_amount amount).1 = decide (a.active_dispute_total - amount < 0) := by
  by_cases h : a.active_dispute_total - amount < 0
  · simp [Account.free_disputed_amount, h]
  · simp [Account.free_disputed_amount, h]

/-- Every error early-return in `handle` fires before any mutation, so an
error result leaves the store exactly as it was. -/
theorem handle_err_store (s : Store) (t : Transaction) (e : TransactionNotApplied)
    (h : (handle s t).1 = Except.error e) : (handle s t).2 = s := by
  obtain ⟨c, tx, info⟩ := t
  by_cases hl : (s c).locked
  · simp [handle, hl]
  · cases info with
    | Deposit amount =>
      cases hrec : (s c).transactions tx with
      | some r => simp [handle, hl, hrec]
      | none => simp [handle, hl, hrec] at h
    | Withdrawal amount =>
      by_cases hw : (s c).available_funds < amount
      · simp [handle, hl, hw]
      · simp [handle, hl, hw] at h
    | Dispute =>
      cases hrec : (s c).transactions tx with
      | none => simp [handle, hl, hrec]
      | some r =>
        cases hd : r.disputed with
        | error msg => simp [handle, hl, hrec, hd]
        | ok r2 => simp [handle, hl, hrec, hd] at h
    | Resolve =>
      cases hrec : (s c).transactions tx with
      | none => simp [handle, hl, hrec]
      | some r =>
        cases hd : r.resolved with
        | error msg => simp [handle, hl, hrec, hd]
        | ok r2 => simp [handle, hl, hrec, hd] at h
    | Chargeback =>
      cases hrec : (s c).transactions tx with
      | none => simp [handle, hl, hrec]
      | some r =>
        cases hd : r.refunded with
        | error msg => simp [handle, hl, hrec, hd]
        | ok r2 => simp [handle, hl, hrec, hd] at h

/-- Lemma: `handle` touches only the account of `t.client_id`. -/
theorem handle_other_client (s : Store) (t : Transaction) (c2 : Nat)
    (h : c2 ≠ t.client_id) : (handle s t).2 c2 = s c2 := by
  obtain ⟨c, tx, info⟩ := t
  replace h : c2 ≠ c := h
  by_cases hl : (s c).locked
  · simp [handle, hl]
  · cases info with
    | Deposit amount =>
      cases hrec : (s c).transactions tx with
      | some r => simp [handle, hl, hrec]
      | none => simp [handle, hl, hrec, Store.update, h]
    | Withdrawal amount =>
      by_cases hw : (s c).available_funds < amount
      · simp [handle, hl, hw]
      · simp [handle, hl, hw, Store.update, h]
    | Dispute =>
      cases hrec : (s c).transactions tx with
      | none => simp [handle, hl, hrec]
      | some r =>
        cases hd : r.disputed with
        | error msg => simp [handle, hl, hrec, hd]
        | ok r2 => simp [handle, hl, hrec, hd, Store.update, h]
    | Resolve =>
      cases hrec : (s c).transactions tx with
      | none => simp [handle, hl, hrec]
      | some r =>
        cases hd : r.resolved with
        | error msg => simp [handle, hl, hrec, hd]
        | ok r2 => simp [handle, hl, hrec, hd, Store.update, h]
    | Chargeback =>
      cases hrec : (s c).transactions tx with
      | none => simp [handle, hl, hrec]
      | some r =>
        cases hd : r.refunded with
        | error msg => simp [handle, hl, hrec, hd]
        | ok r2 => simp [handle, hl, hrec, hd, Store.update, h]

theorem txmap_insert_pos {m : TxMap} {k : Nat} {v : DepositRecord}
    (hm : ∀ k2 r, m k2 = some r → 0 < r.amount) (hv : 0 < v.amount) :
    ∀ k2 r, m.insert k v k2 = some r → 0 < r.amount := by
  intro k2 r hr
  by_cases hk : k2 = k
  · subst hk
    rw [TxMap.insert_self] at hr
    injection hr with h2
    exact h2 ▸ hv
  · rw [TxMap.insert_other _ _ _ _ hk] at hr
    exact hm k2 r hr

theorem initStore_inv : StoreInv initStore := by
  intro c
  refine ⟨le_refl 0, fun _ => le_refl 0, fun k r hr => ?_⟩
  simp [initStore, Account.new, TxMap.empty] at hr

/-- One `handle` call on a parser-valid transaction preserves the
bookkeeping invariant. -/
theorem handle_preserves_inv (s : Store) (t : Transaction) (hv : validTx t = true)
    (hs : StoreInv s) : StoreInv (handle s t).2 := by
  obtain ⟨c, tx, info⟩ := t
  intro c2
  by_cases hc : c2 = c
  case neg =>
    rw [handle_other_client s _ c2 hc]
    exact hs c2
  case pos =>
    subst hc
    by_cases hl : (s c2).locked
    · simp [handle, hl]
      exact hs c2
    · have hlf : (s c2).locked = false := by simpa using hl
      cases info with
      | Deposit amount =>
        replace hv : 0 < amount := by simpa [validTx] using hv
        cases hrec : (s c2).transactions tx with
        | some r =>
          simp [handle, hl, hrec]
          exact hs c2
        | none =>
          obtain ⟨h1, h2, h3⟩ := hs c2
          have ht0 : 0 ≤ (s c2).total_funds := h2 hlf
          simp [handle, hl, hrec, Store.update_self]
          refine ⟨h1, fun _ => ?_, txmap_insert_pos h3 hv⟩
          show 0 ≤ (s c2).total_funds + amount
          linarith
      | Withdrawal amount =>
        replace hv : 0 < amount := by simpa [validTx] using hv
        by_cases hw : (s c2).available_funds < amount
        · simp [handle, hl, hw]
          exact hs c2
        · obtain ⟨h1, h2, h3⟩ := hs c2
          have ht0 : 0 ≤ (s c2).total_funds := h2 hlf
          push_neg at hw
          have hav : amount ≤ max ((s c2).total_funds - (s c2).active_dispute_total) 0 := hw
          have hta : 0 ≤ (s c2).total_funds - amount := by
            rcases le_total ((s c2).total_funds - (s c2).active_dispute_total) 0 with h4 | h4
            · rw [max_eq_right h4] at hav
              linarith
            · rw [max_eq_left h4] at hav
              linarith
          simp [handle, hl, not_lt.mpr hw, Store.update_self]
          exact ⟨h1, fun _ => hta, h3⟩
      | Dispute =>
        cases hrec : (s c2).transactions tx with
        | none =>
          simp [handle, hl, hrec]
          exact hs c2
        | some r =>
          cases hd : r.disputed with
          | error msg =>
            simp [handle, hl, hrec, hd]
            exact hs c2
          | ok r2 =>
            obtain ⟨h1, h2, h3⟩ := hs c2
            obtain ⟨hr2, _⟩ := DepositRecord.disputed_ok hd
            have hra : 0 < r.amount := h3 tx r hrec
            subst hr2
            simp [handle, hl, hrec, hd, Store.update_self]
            refine ⟨?_, fun _ => h2 hlf, txmap_insert_pos h3 hra⟩
            show 0 ≤ (s c2).active_dispute_total + r.amount
            linarith
      | Resolve =>
        cases hrec : (s c2).transactions tx with
        | none =>
          simp [handle, hl, hrec]
          exact hs c2
        | some r =>
          cases hd : r.resolved with
          | error msg =>
            simp [handle, hl, hrec, hd]
            exact hs c2
          | ok r2 =>
            obtain ⟨h1, h2, h3⟩ := hs c2
            obtain ⟨hr2, _⟩ := DepositRecord.resolved_ok hd
            have hra : 0 < r.amount := h3 tx r hrec
            subst hr2
            simp [handle, hl, hrec, hd, Store.update_self, Account.free_disputed_amount_snd]
            exact ⟨le_max_right _ _, fun _ => h2 hlf, txmap_insert_pos h3 hra⟩
      | Chargeback =>
        cases hrec : (s c2).transactions tx with
        | none =>
          simp [handle, hl, hrec]
          exact hs c2
        | some r =>
          cases hd : r.refunded with
          | error msg =>
            simp [handle, hl, hrec, hd]
            exact hs c2
          | ok r2 =>
            obtain ⟨h1, h2, h3⟩ := hs c2
            obtain ⟨hr2, _⟩ := DepositRecord.refunded_ok hd
            have hra : 0 < r.amount := h3 tx r hrec
            subst hr2
            simp [handle, hl, hrec, hd, Store.update_self, Account.free_disputed_amount_snd]
            refine ⟨le_max_right _ _, fun h5 => ?_, txmap_insert_pos h3 hra⟩
            simp at h5

/-- The bookkeeping invariant holds in every reachable store. -/
theorem reachable_inv {s : Store} (h : Reachable s) : StoreInv s := by
  induction h with
  | init => exact initStore_inv
  | step s2 t hv hs ih => exact handle_preserves_inv s2 t hv ih

/-!
## Claims
-/

/-- C1: whenever `TxEngine::handle` returns a `TransactionNotApplied`
error, the account of the target client is left unchanged from its pre-call
state: `total_funds`, `active_dispute_total`, `locked` and the whole
transactions map (hence the amount and dispute status of every record). -/
theorem handle_err_account_unchanged (s : Store) (t : Transaction) (e : TransactionNotApplied)
    (h : (handle s t).1 = Except.error e) :
    ((handle s t).2 t.client_id).total_funds = (s t.client_id).total_funds ∧
    ((handle s t).2 t.client_id).active_dispute_total = (s t.client_id).active_dispute_total ∧
    ((handle s t).2 t.client_id).locked = (s t.client_id).locked ∧
    ((handle s t).2 t.client_id).transactions = (s t.client_id).transactions := by
  rw [handle_err_store s t e h]
  exact ⟨rfl, rfl, rfl, rfl⟩

theorem handle_err_account_unchanged_witness :
    (handle initStore { client_id := 2, transaction_id := 5, info := TransactionInfo.Withdrawal 3 }).1
        = Except.error TransactionNotApplied.InsufficientFunds ∧
    ((handle initStore { client_id := 2, transaction_id := 5, info := TransactionInfo.Withdrawal 3 }).2 2).total_funds
        = (initStore 2).total_funds ∧
    ((handle initStore { client_id := 2, transaction_id := 5, info := TransactionInfo.Withdrawal 3 }).2 2).transactions
        = (initStore 2).transactions := by
  have h := handle_err_account_unchanged initStore
      { client_id := 2, transaction_id := 5, info := TransactionInfo.Withdrawal 3 }
      TransactionNotApplied.InsufficientFunds (by rfl)
  exact ⟨by rfl, h.1, h.2.2.2⟩

/-- C2: in every reachable store state, every account satisfies
`available_funds() ≥ 0` and `held_funds() ≤ max(total_funds, 0)`. -/
theorem reachable_funds_bounds (s : Store) (c : Nat) (h : Reachable s) :
    0 ≤ (s c).available_funds ∧ (s c).held_funds ≤ max (s c).total_funds 0 := by
  constructor
  · unfold Account.available_funds
    exact le_max_right _ _
  · unfold Account.held_funds
    exact min_le_right _ _

theorem reachable_funds_bounds_witness :
    0 ≤ (initStore 0).available_funds ∧
      (initStore 0).held_funds ≤ max (initStore 0).total_funds 0 :=
  reachable_funds_bounds initStore 0 Reachable.init

/-- C3: a Chargeback on an unlocked account whose record for the
transaction id is Disputed succeeds; the disputed total is decreased by
the amount of the record clamping at zero, `total_funds` is decreased by
that amount (possibly below zero), the record becomes Refunded, the
account is locked, and if `total_funds` went negative then
`available_funds()` is clamped at 0. -/
theorem chargeback_disputed_success (s : Store) (c tx : Nat) (r : DepositRecord)
    (hl : (s c).locked = false)
    (hrec : (s c).transactions tx = some r)
    (hst : r.dispute_status = DisputeStatus.Disputed) :
    (handle s ⟨c, tx, TransactionInfo.Chargeback⟩).1 = Except.ok () ∧
    ((handle s ⟨c, tx, TransactionInfo.Chargeback⟩).2 c).active_dispute_total
        = max ((s c).active_dispute_total - r.amount) 0 ∧
    ((handle s ⟨c, tx, TransactionInfo.Chargeback⟩).2 c).total_funds
        = (s c).total_funds - r.amount ∧
    ((handle s ⟨c, tx, TransactionInfo.Chargeback⟩).2 c).transactions tx
        = some { r with dispute_status := DisputeStatus.Refunded } ∧
    ((handle s ⟨c, tx, TransactionInfo.Chargeback⟩).2 c).locked = true ∧
    (((handle s ⟨c, tx, TransactionInfo.Chargeback⟩).2 c).total_funds < 0 →
      ((handle s ⟨c, tx, TransactionInfo.Chargeback⟩).2 c).available_funds = 0) := by
  have hok : r.refunded = Except.ok { r with dispute_status := DisputeStatus.Refunded } := by
    simp [DepositRecord.refunded, hst]
  simp only [handle, hl, Bool.false_eq_true, if_false, hrec, hok,
    Account.free_disputed_amount_snd, Store.update_self, TxMap.insert_self]
  refine ⟨by trivial, by trivial, by trivial, by trivial, by trivial, fun hneg => ?_⟩
  have h0 : (0:Int) ≤ max ((s c).active_dispute_total - r.amount) 0 := le_max_right _ _
  have hneg2 : (s c).total_funds - r.amount < 0 := hneg
  show max ((s c).total_funds - r.amount - max ((s c).active_dispute_total - r.amount) 0) 0 = 0
  apply max_eq_right
  linarith

theorem chargeback_disputed_success_witness :
    (storeDisputed 1).locked = false ∧
    (storeDisputed 1).transactions 7
        = some { amount := 10, dispute_status := DisputeStatus.Disputed } ∧
    (handle storeDisputed ⟨1, 7, TransactionInfo.Chargeback⟩).1 = Except.ok () ∧
    ((handle storeDisputed ⟨1, 7, TransactionInfo.Chargeback⟩).2 1).total_funds
        = (storeDisputed 1).total_funds - 10 ∧
    ((handle storeDisputed ⟨1, 7, TransactionInfo.Chargeback⟩).2 1).locked = true := by
  have h1 : (storeDisputed 1).locked = false := by decide
  have h2 : (storeDisputed 1).transactions 7
      = some { amount := 10, dispute_status := DisputeStatus.Disputed } := by decide
  have h := chargeback_disputed_success storeDisputed 1 7
      { amount := 10, dispute_status := DisputeStatus.Disputed } h1 h2 rfl
  exact ⟨h1, h2, h.1, h.2.2.1, h.2.2.2.2.1⟩

/-- C4: once the `locked` flag of an account is true it never goes back to
false under any `handle` call, and any transaction targeting that client
fails with `AccountLocked` with the whole store untouched. -/
theorem locked_is_permanent_and_rejects (s : Store) (t : Transaction) (c : Nat)
    (h : (s c).locked = true) :
    ((handle s t).2 c).locked = true ∧
    (t.client_id = c → handle s t = (Except.error TransactionNotApplied.AccountLocked, s)) := by
  constructor
  · by_cases hc : c = t.client_id
    · subst hc
      simp [handle, h]
    · rw [handle_other_client s t c hc]
      exact h
  · intro hct
    simp [handle, hct, h]

theorem locked_is_permanent_and_rejects_witness :
    (storeLockedNeg 1).locked = true ∧
    ((handle storeLockedNeg { client_id := 1, transaction_id := 2, info := TransactionInfo.Deposit 5 }).2 1).locked = true ∧
    handle storeLockedNeg { client_id := 1, transaction_id := 2, info := TransactionInfo.Deposit 5 }
        = (Except.error TransactionNotApplied.AccountLocked, storeLockedNeg) := by
  have h1 : (storeLockedNeg 1).locked = true := by decide
  have h := locked_is_permanent_and_rejects storeLockedNeg
      { client_id := 1, transaction_id := 2, info := TransactionInfo.Deposit 5 } 1 h1
  exact ⟨h1, h.1, h.2 rfl⟩

/-- C5: a Dispute on an unlocked account fails with
`DisputedTransactionNotFound` when the record is absent; fails with
`InvalidDisputeState` leaving `active_dispute_total` unchanged when the
record is Disputed or Refunded; and when the record is NotDisputed or
Resolved it succeeds, the record becomes Disputed and
`active_dispute_total` grows by exactly the amount of the record. -/
theorem dispute_cases (s : Store) (c tx : Nat) (hl : (s c).locked = false) :
    ((s c).transactions tx = none →
      handle s ⟨c, tx, TransactionInfo.Dispute⟩
        = (Except.error (TransactionNotApplied.DisputedTransactionNotFound tx), s)) ∧
    (∀ r, (s c).transactions tx = some r →
      (r.dispute_status = DisputeStatus.Disputed ∨ r.dispute_status = DisputeStatus.Refunded) →
      (∃ msg, handle s ⟨c, tx, TransactionInfo.Dispute⟩
          = (Except.error (TransactionNotApplied.InvalidDisputeState msg), s)) ∧
      ((handle s ⟨c, tx, TransactionInfo.Dispute⟩).2 c).active_dispute_total
          = (s c).active_dispute_total) ∧
    (∀ r, (s c).transactions tx = some r →
      (r.dispute_status = DisputeStatus.NotDisputed ∨ r.dispute_status = DisputeStatus.Resolved) →
      (handle s ⟨c, tx, TransactionInfo.Dispute⟩).1 = Except.ok () ∧
      ((handle s ⟨c, tx, TransactionInfo.Dispute⟩).2 c).transactions tx
          = some { r with dispute_status := DisputeStatus.Disputed } ∧
      ((handle s ⟨c, tx, TransactionInfo.Dispute⟩).2 c).active_dispute_total
          = (s c).active_dispute_total + r.amount) := by
  refine ⟨fun habs => by simp [handle, hl, habs], fun r hrec hbad => ?_, fun r hrec hgood => ?_⟩
  · have herr : r.disputed = Except.error
        ("Cannot begin dispute from current transaciton state " ++ r.dispute_status.name) := by
      rcases hbad with h5 | h5 <;> simp [DepositRecord.disputed, h5]
    refine ⟨⟨"Cannot begin dispute from current transaciton state " ++ r.dispute_status.name,
      by simp [handle, hl, hrec, herr]⟩, by simp [handle, hl, hrec, herr]⟩
  · have hok : r.disputed = Except.ok { r with dispute_status := DisputeStatus.Disputed } := by
      rcases hgood with h5 | h5 <;> simp [DepositRecord.disputed, h5]
    simp [handle, hl, hrec, hok, Store.update_self, TxMap.insert_self]

theorem dispute_cases_witness :
    (storeOneDeposit 1).locked = false ∧
    (storeOneDeposit 1).transactions 3 = some (DepositRecord.new 4) ∧
    (handle storeOneDeposit ⟨1, 3, TransactionInfo.Dispute⟩).1 = Except.ok () ∧
    ((handle storeOneDeposit ⟨1, 3, TransactionInfo.Dispute⟩).2 1).active_dispute_total
        = (storeOneDeposit 1).active_dispute_total + 4 := by
  have h1 : (storeOneDeposit 1).locked = false := by decide
  have h2 : (storeOneDeposit 1).transactions 3 = some (DepositRecord.new 4) := by decide
  have h := (dispute_cases storeOneDeposit 1 3 h1).2.2 (DepositRecord.new 4) h2 (Or.inl rfl)
  exact ⟨h1, h2, h.1, h.2.2⟩

/-- C6: a Resolve on an unlocked account fails with
`DisputedTransactionNotFound` when the record is absent, fails with
`InvalidDisputeState` leaving the store untouched when the record is not
Disputed, and on a Disputed record succeeds: the record becomes Resolved
and `active_dispute_total` is decreased by the amount of the record clamping
at zero; the would-be-negative condition is exactly the boolean flag of
`free_disputed_amount` and is never an error return. -/
theorem resolve_cases (s : Store) (c tx : Nat) (hl : (s c).locked = false) :
    ((s c).transactions tx = none →
      handle s ⟨c, tx, TransactionInfo.Resolve⟩
        = (Except.error (TransactionNotApplied.DisputedTransactionNotFound tx), s)) ∧
    (∀ r, (s c).transactions tx = some r →
      r.dispute_status ≠ DisputeStatus.Disputed →
      ∃ msg, handle s ⟨c, tx, TransactionInfo.Resolve⟩
          = (Except.error (TransactionNotApplied.InvalidDisputeState msg), s)) ∧
    (∀ r, (s c).transactions tx = some r →
      r.dispute_status = DisputeStatus.Disputed →
      (handle s ⟨c, tx, TransactionInfo.Resolve⟩).1 = Except.ok () ∧
      ((handle s ⟨c, tx, TransactionInfo.Resolve⟩).2 c).transactions tx
          = some { r with dispute_status := DisputeStatus.Resolved } ∧
      ((handle s ⟨c, tx, TransactionInfo.Resolve⟩).2 c).active_dispute_total
          = max ((s c).active_dispute_total - r.amount) 0 ∧
      (((s c).free_disputed_amount r.amount).1 = true ↔
        (s c).active_dispute_total < r.amount)) := by
  refine ⟨fun habs => by simp [handle, hl, habs], fun r hrec hbad => ?_, fun r hrec hst => ?_⟩
  · have herr : r.resolved = Except.error
        ("Cannot resolve dispute from current transaction state " ++ r.dispute_status.name) := by
      simp [DepositRecord.resolved, hbad]
    exact ⟨"Cannot resolve dispute from current transaction state " ++ r.dispute_status.name,
      by simp [handle, hl, hrec, herr]⟩
  · have hok : r.resolved = Except.ok { r with dispute_status := DisputeStatus.Resolved } := by
      simp [DepositRecord.resolved, hst]
    refine ⟨?_, ?_, ?_, ?_⟩
    · simp [handle, hl, hrec, hok]
    · simp [handle, hl, hrec, hok, Store.update_self, Account.free_disputed_amount_snd,
        TxMap.insert_self]
    · simp [handle, hl, hrec, hok, Store.update_self, Account.free_disputed_amount_snd]
    · rw [Account.free_disputed_amount_fst]
      simp [sub_neg]

theorem resolve_cases_witness :
    (storeDisputed 1).locked = false ∧
    (storeDisputed 1).transactions 7
        = some { amount := 10, dispute_status := DisputeStatus.Disputed } ∧
    (handle storeDisputed ⟨1, 7, TransactionInfo.Resolve⟩).1 = Except.ok () ∧
    ((handle storeDisputed ⟨1, 7, TransactionInfo.Resolve⟩).2 1).active_dispute_total
        = max ((storeDisputed 1).active_dispute_total - 10) 0 := by
  have h1 : (storeDisputed 1).locked = false := by decide
  have h2 : (storeDisputed 1).transactions 7
      = some { amount := 10, dispute_status := DisputeStatus.Disputed } := by decide
  have h := (resolve_cases storeDisputed 1 7 h1).2.2
      { amount := 10, dispute_status := DisputeStatus.Disputed } h2 rfl
  exact ⟨h1, h2, h.1, h.2.2.1⟩

/-- C7: a Deposit on an unlocked account whose transactions map already
contains the transaction id fails with `RepeatTransaction` and mutates
nothing; on a fresh id it increases `total_funds` by the amount and
inserts a NotDisputed record of that amount — after which any further
deposit reusing the id is rejected. -/
theorem deposit_cases (s : Store) (c tx : Nat) (amount : Decimal)
    (hl : (s c).locked = false) :
    (∀ r, (s c).transactions tx = some r →
      handle s ⟨c, tx, TransactionInfo.Deposit amount⟩
        = (Except.error (TransactionNotApplied.RepeatTransaction tx), s)) ∧
    ((s c).transactions tx = none →
      (handle s ⟨c, tx, TransactionInfo.Deposit amount⟩).1 = Except.ok () ∧
      ((handle s ⟨c, tx, TransactionInfo.Deposit amount⟩).2 c).total_funds
          = (s c).total_funds + amount ∧
      ((handle s ⟨c, tx, TransactionInfo.Deposit amount⟩).2 c).transactions tx
          = some (DepositRecord.new amount) ∧
      ∀ amount2,
        (handle ((handle s ⟨c, tx, TransactionInfo.Deposit amount⟩).2)
            ⟨c, tx, TransactionInfo.Deposit amount2⟩).1
          = Except.error (TransactionNotApplied.RepeatTransaction tx)) := by
  refine ⟨fun r hrec => by simp [handle, hl, hrec], fun hrec => ?_⟩
  refine ⟨?_, ?_, ?_, fun amount2 => ?_⟩
  · simp [handle, hl, hrec]
  · simp [handle, hl, hrec, Store.update_self]
  · simp [handle, hl, hrec, Store.update_self, TxMap.insert_self]
  · have hpost : ((handle s ⟨c, tx, TransactionInfo.Deposit amount⟩).2 c).transactions tx
        = some (DepositRecord.new amount) := by
      simp [handle, hl, hrec, Store.update_self, TxMap.insert_self]
    have hpostl : ((handle s ⟨c, tx, TransactionInfo.Deposit amount⟩).2 c).locked = false := by
      simp [handle, hl, hrec, Store.update_self]
    generalize hS : (handle s ⟨c, tx, TransactionInfo.Deposit amount⟩).2 = S at hpost hpostl
    simp [handle, hpostl, hpost]

theorem deposit_cases_witness :
    (initStore 2).locked = false ∧
    (initStore 2).transactions 9 = none ∧
    (handle initStore ⟨2, 9, TransactionInfo.Deposit 6⟩).1 = Except.ok () ∧
    ((handle initStore ⟨2, 9, TransactionInfo.Deposit 6⟩).2 2).total_funds
        = (initStore 2).total_funds + 6 ∧
    (handle ((handle initStore ⟨2, 9, TransactionInfo.Deposit 6⟩).2)
        ⟨2, 9, TransactionInfo.Deposit 11⟩).1
      = Except.error (TransactionNotApplied.RepeatTransaction 9) := by
  have h1 : (initStore 2).locked = false := by decide
  have h2 : (initStore 2).transactions 9 = none := by decide
  have h := (deposit_cases initStore 2 9 6 h1).2 h2
  exact ⟨h1, h2, h.1, h.2.1, h.2.2.2 11⟩

/-- C8: a Withdrawal on an unlocked account with
`available_funds() < amount` fails with `InsufficientFunds` and mutates
nothing; otherwise it succeeds and decreases `total_funds` by the
amount; and in every case the transactions map of every account is
unchanged, so a withdrawal can never be disputed later. -/
theorem withdrawal_cases (s : Store) (c tx : Nat) (amount : Decimal)
    (hl : (s c).locked = false) :
    ((s c).available_funds < amount →
      handle s ⟨c, tx, TransactionInfo.Withdrawal amount⟩
        = (Except.error TransactionNotApplied.InsufficientFunds, s)) ∧
    (amount ≤ (s c).available_funds →
      (handle s ⟨c, tx, TransactionInfo.Withdrawal amount⟩).1 = Except.ok () ∧
      ((handle s ⟨c, tx, TransactionInfo.Withdrawal amount⟩).2 c).total_funds
          = (s c).total_funds - amount) ∧
    (∀ c2, ((handle s ⟨c, tx, TransactionInfo.Withdrawal amount⟩).2 c2).transactions
        = (s c2).transactions) := by
  refine ⟨fun hw => by simp [handle, hl, hw], fun hw => ?_, fun c2 => ?_⟩
  · constructor
    · simp [handle, hl, not_lt.mpr hw]
    · simp [handle, hl, not_lt.mpr hw, Store.update_self]
  · by_cases hc : c2 = c
    · subst hc
      by_cases hw : (s c2).available_funds < amount
      · simp [handle, hl, hw]
      · simp [handle, hl, hw, Store.update_self]
    · rw [handle_other_client s _ c2 hc]

theorem withdrawal_cases_witness :
    (storeOneDeposit 1).locked = false ∧
    (3:Int) ≤ (storeOneDeposit 1).available_funds ∧
    (handle storeOneDeposit ⟨1, 5, TransactionInfo.Withdrawal 3⟩).1 = Except.ok () ∧
    ((handle storeOneDeposit ⟨1, 5, TransactionInfo.Withdrawal 3⟩).2 1).total_funds
        = (storeOneDeposit 1).total_funds - 3 ∧
    ((handle storeOneDeposit ⟨1, 5, TransactionInfo.Withdrawal 3⟩).2 1).transactions
        = (storeOneDeposit 1).transactions := by
  have h1 : (storeOneDeposit 1).locked = false := by decide
  have h2 : (3:Int) ≤ (storeOneDeposit 1).available_funds := by decide
  have h := withdrawal_cases storeOneDeposit 1 5 3 h1
  exact ⟨h1, h2, (h.2.1 h2).1, (h.2.1 h2).2, h.2.2 1⟩

/-- C9: on a reachable store, a succeeding Deposit of (positive) amount
`a` into an account with no active disputes increases `available_funds()`
by exactly `a`. -/
theorem deposit_available_delta (s : Store) (c tx : Nat) (a : Decimal)
    (hr : Reachable s) (ha : 0 < a) (hd : (s c).active_dispute_total = 0)
    (hok : (handle s ⟨c, tx, TransactionInfo.Deposit a⟩).1 = Except.ok ()) :
    ((handle s ⟨c, tx, TransactionInfo.Deposit a⟩).2 c).available_funds
      = (s c).available_funds + a := by
  by_cases hl : (s c).locked
  · simp [handle, hl] at hok
  · cases hrec : (s c).transactions tx with
    | some r => simp [handle, hl, hrec] at hok
    | none =>
      have hlf : (s c).locked = false := by simpa using hl
      have ht0 : 0 ≤ (s c).total_funds := ((reachable_inv hr) c).2.1 hlf
      simp only [handle, hl, Bool.false_eq_true, if_false, hrec, Store.update_self]
      show max ((s c).total_funds + a - (s c).active_dispute_total) 0
          = max ((s c).total_funds - (s c).active_dispute_total) 0 + a
      rw [hd, sub_zero, sub_zero, max_eq_left (by linarith), max_eq_left ht0]

theorem deposit_available_delta_witness :
    (0:Int) < 5 ∧ (initStore 3).active_dispute_total = 0 ∧
    (handle initStore ⟨3, 1, TransactionInfo.Deposit 5⟩).1 = Except.ok () ∧
    ((handle initStore ⟨3, 1, TransactionInfo.Deposit 5⟩).2 3).available_funds
        = (initStore 3).available_funds + 5 :=
  ⟨by decide, by decide, by rfl,
   deposit_available_delta initStore 3 1 5 Reachable.init (by decide) (by decide) (by rfl)⟩

/-- C10: in every reachable store state, an account with negative
`total_funds` is locked — an unlocked account never goes overdrawn. -/
theorem negative_implies_locked (s : Store) (c : Nat) (h : Reachable s)
    (hneg : (s c).total_funds < 0) : (s c).locked = true := by
  cases hb : (s c).locked with
  | false =>
    have h0 : 0 ≤ (s c).total_funds := ((reachable_inv h) c).2.1 hb
    linarith
  | true => rfl

theorem negative_implies_locked_witness :
    (storeLockedNeg 1).total_funds < 0 ∧ (storeLockedNeg 1).locked = true := by
  have hreach : Reachable storeLockedNeg :=
    Reachable.step _ _ (by decide)
      (Reachable.step _ _ (by decide)
        (Reachable.step _ _ (by decide)
          (Reachable.step _ _ (by decide) Reachable.init)))
  exact ⟨by decide, negative_implies_locked storeLockedNeg 1 hreach (by decide)⟩

end PaymentsEngine
